import Mathlib

/-!
Shallow embedding of the getui push-notification client (`client.go`).

HTTP exchanges are modelled by an oracle parameter: every operation takes
the outcome of each HTTP call it may perform (`HttpOutcome`) and returns,
besides its Go result, the list of endpoints it actually attempted to
contact, so that ordering and absence of network activity are provable.
Go errors are modelled by the structured type `GError`; a Go `error` return
value is `Except GError _` (or `Option GError` where Go can return both a
non-nil value and a non-nil error).
-/

set_option maxRecDepth 10000

namespace Getui

/-- `Message` struct of `client.go`. -/
structure Message where
  appKey : String
  isOffline : Bool
  msgType : String
  deriving Repr, DecidableEq

/-- `Notification.Style` nested struct. -/
structure NotificationStyle where
  type : Int
  text : String
  title : String
  deriving Repr, DecidableEq

/-- `Notification` struct of `client.go`. -/
structure Notification where
  style : NotificationStyle
  transmissionType : Bool
  transmissionContent : String
  deriving Repr, DecidableEq

/-- `PushInfo.Aps.Alert` nested struct. -/
structure ApsAlert where
  title : String
  body : String
  deriving Repr, DecidableEq

/-- `PushInfo.Aps` nested struct. -/
structure Aps where
  alert : ApsAlert
  autoBadge : String
  contentAvailable : Int
  deriving Repr, DecidableEq

/-- `PushInfoMultimedia` struct of `client.go`. -/
structure PushInfoMultimedia where
  url : String
  type : Int
  onlyWifi : Bool
  deriving Repr, DecidableEq

/-- `PushInfo` struct of `client.go`. -/
structure PushInfo where
  aps : Aps
  multimedia : List PushInfoMultimedia
  deriving Repr, DecidableEq

/-- `SingleReqBody` struct of `client.go`. -/
structure SingleReqBody where
  message : Message
  notification : Notification
  cid : String
  «alias» : String
  requestID : String
  pushInfo : PushInfo
  deriving Repr, DecidableEq

/-- `ListReqBody` struct of `client.go`. -/
structure ListReqBody where
  message : Message
  notification : Notification
  cid : List String
  «alias» : String
  pushInfo : PushInfo
  taskID : String
  needDetail : Bool
  offlineExpireTime : Int
  deriving Repr, DecidableEq

/-- `AppReqBodyCondition` struct of `client.go`. -/
structure AppReqBodyCondition where
  key : String
  values : List String
  optType : String
  deriving Repr, DecidableEq

/-- `AppReqBody` struct of `client.go`. -/
structure AppReqBody where
  message : Message
  notification : Notification
  condition : List AppReqBodyCondition
  requestID : String
  deriving Repr, DecidableEq

/-- `RspBody` struct of `client.go`: the uniform response envelope. -/
structure RspBody where
  result : String
  taskID : String
  desc : String
  status : String
  requestID : String
  deriving Repr, DecidableEq

/-- `UserStatus` struct of `client.go` (the response of the user-status
lookup).  `lastLogin` models the Go `time.Time` field as epoch seconds. -/
structure UserStatus where
  result : String
  cid : String
  status : String
  lastLoginUnix : String
  lastLogin : Int
  deriving Repr, DecidableEq

/-- The anonymous struct decoded by `refreshAuth`
(`{Result string; AuthToken string}`). -/
structure AuthRsp where
  result : String
  authToken : String
  deriving Repr, DecidableEq

/-- `InitParams` struct of `client.go`.  `authHeartbeat` (a `time.Duration`)
is modelled as a natural number. -/
structure InitParams where
  appID : String
  appSecret : String
  appKey : String
  masterSecret : String
  authHeartbeat : Nat
  deriving Repr, DecidableEq

/-- `client` struct of `client.go`; it embeds `InitParams`.
`lastUpdateTokenTime` (a `time.Time`) is modelled as a natural number. -/
structure client extends InitParams where
  lastUpdateTokenTime : Nat
  authToken : String
  deriving Repr, DecidableEq

/-- The logical HTTP endpoints the client contacts; ordering and presence
in a call trace model the sequence of HTTP requests an operation builds
and sends. -/
inductive Endpoint where
  | authSign
  | authClose
  | pushSingle
  | pushList
  | pushApp
  | stopTask
  | userStatus
  | saveList
  deriving Repr, DecidableEq

/-- Structured model of the Go `error` values the client produces.
`validation` is a client-side argument check made before any network
activity; `remote` / `remoteStatus` carry the decoded envelope of a
response whose result code was not the success sentinel; `wrap` is
`fmt.Errorf("... err: %s", err)` wrapping of an inner error. -/
inductive GError where
  | createReq : String → String → GError
  | send : String → String → GError
  | readBody : String → String → GError
  | decodeJSON : String → String → GError
  | remote : String → RspBody → GError
  | remoteStatus : String → UserStatus → GError
  | atoi : String → GError
  | validation : String → GError
  | wrap : String → GError → GError
  deriving Repr, DecidableEq

/-- Oracle describing how one HTTP exchange (build request, send, read
body, unmarshal JSON) turns out: a failure at any stage, carrying the
underlying error text, or the decoded value. -/
inductive HttpOutcome (α : Type) where
  | createFailure : String → HttpOutcome α
  | sendFailure : String → HttpOutcome α
  | readFailure : String → HttpOutcome α
  | decodeFailure : String → HttpOutcome α
  | decoded : α → HttpOutcome α
  deriving Repr, DecidableEq

/-- The `NewRequest` / `Do` / `ReadAll` / `Unmarshal` pipeline common to
every operation in `client.go`, mapping each stage failure of the oracle
to the corresponding wrapped error. -/
def doExchange {α : Type} (ctx : String) (o : HttpOutcome α) : Except GError α :=
  match o with
  | .createFailure e => .error (.createReq ctx e)
  | .sendFailure e => .error (.send ctx e)
  | .readFailure e => .error (.readBody ctx e)
  | .decodeFailure e => .error (.decodeJSON ctx e)
  | .decoded v => .ok v

/-- Go `json.Unmarshal` merges into a pre-initialized struct: a field the
response leaves empty keeps its preset value. -/
def mergeDefault (preset parsed : String) : String :=
  if parsed = "" then preset else parsed

/-! ### SHA-256 (`crypto/sha256` as used by `refreshAuth`)

Bytes are naturals below 256; 32-bit words are naturals reduced modulo
`2 ^ 32` after every arithmetic step, mirroring `uint32` overflow. -/

/-- Addition on 32-bit words. -/
def add32 (a b : Nat) : Nat := (a + b) % 4294967296

/-- Right rotation of a 32-bit word by `k` bits. -/
def rotr32 (k x : Nat) : Nat :=
  ((x >>> k) ||| (x <<< (32 - k))) % 4294967296

/-- SHA-256 `Ch` function. -/
def ch32 (x y z : Nat) : Nat :=
  Nat.xor (Nat.land x y) (Nat.land (Nat.xor x 4294967295) z)

/-- SHA-256 `Maj` function. -/
def maj32 (x y z : Nat) : Nat :=
  Nat.xor (Nat.xor (Nat.land x y) (Nat.land x z)) (Nat.land y z)

/-- SHA-256 Σ0. -/
def bigSigma0 (x : Nat) : Nat :=
  Nat.xor (Nat.xor (rotr32 2 x) (rotr32 13 x)) (rotr32 22 x)

/-- SHA-256 Σ1. -/
def bigSigma1 (x : Nat) : Nat :=
  Nat.xor (Nat.xor (rotr32 6 x) (rotr32 11 x)) (rotr32 25 x)

/-- SHA-256 σ0. -/
def smallSigma0 (x : Nat) : Nat :=
  Nat.xor (Nat.xor (rotr32 7 x) (rotr32 18 x)) (x >>> 3)

/-- SHA-256 σ1. -/
def smallSigma1 (x : Nat) : Nat :=
  Nat.xor (Nat.xor (rotr32 17 x) (rotr32 19 x)) (x >>> 10)

/-- SHA-256 round constants (FIPS 180-4, written in decimal). -/
def K256 : Array Nat := #[
  1116352408, 1899447441, 3049323471, 3921009573, 961987163,
  1508970993, 2453635748, 2870763221, 3624381080, 310598401,
  607225278, 1426881987, 1925078388, 2162078206, 2614888103,
  3248222580, 3835390401, 4022224774, 264347078, 604807628,
  770255983, 1249150122, 1555081692, 1996064986, 2554220882,
  2821834349, 2952996808, 3210313671, 3336571891, 3584528711,
  113926993, 338241895, 666307205, 773529912, 1294757372,
  1396182291, 1695183700, 1986661051, 2177026350, 2456956037,
  2730485921, 2820302411, 3259730800, 3345764771, 3516065817,
  3600352804, 4094571909, 275423344, 430227734, 506948616,
  659060556, 883997877, 958139571, 1322822218, 1537002063,
  1747873779, 1955562222, 2024104815, 2227730452, 2361852424,
  2428436474, 2756734187, 3204031479, 3329325298]

/-- SHA-256 initial hash state (FIPS 180-4, written in decimal). -/
def H256 : List Nat :=
  [1779033703, 3144134277, 1013904242, 2773480762,
   1359893119, 2600822924, 528734635, 1541459225]

/-- 64-bit big-endian byte rendering of the message bit length. -/
def be64 (n : Nat) : List Nat :=
  [(n >>> 56) % 256, (n >>> 48) % 256, (n >>> 40) % 256, (n >>> 32) % 256,
   (n >>> 24) % 256, (n >>> 16) % 256, (n >>> 8) % 256, n % 256]

/-- SHA-256 padding: `0x80`, zeros to 56 mod 64, then the bit length. -/
def padMessage (msg : List Nat) : List Nat :=
  msg ++ (128 :: List.replicate ((119 - msg.length % 64) % 64) 0) ++
    be64 (msg.length * 8)

/-- Split a byte list into 64-byte blocks; the fuel bounds the number of
blocks and is in practice the list length. -/
def chunks64Aux : Nat → List Nat → List (List Nat)
  | 0, _ => []
  | _, [] => []
  | fuel + 1, a :: l => (a :: l).take 64 :: chunks64Aux fuel ((a :: l).drop 64)

/-- Split a byte list into 64-byte blocks. -/
def chunks64 (l : List Nat) : List (List Nat) :=
  chunks64Aux l.length l

/-- Group bytes into big-endian 32-bit words. -/
def toWords : List Nat → List Nat
  | a :: b :: c :: d :: rest =>
      (((a * 256 + b) * 256 + c) * 256 + d) :: toWords rest
  | _ => []

/-- The 64-entry message schedule of one block. -/
def schedule (block : List Nat) : Array Nat :=
  (List.range 48).foldl
    (fun w i =>
      let t := i + 16
      w.push (add32
        (add32 (smallSigma1 (w.getD (t - 2) 0)) (w.getD (t - 7) 0))
        (add32 (smallSigma0 (w.getD (t - 15) 0)) (w.getD (t - 16) 0))))
    (toWords block).toArray

/-- One SHA-256 compression step over an 8-word state. -/
def compress (h : List Nat) (block : List Nat) : List Nat :=
  let w := schedule block
  let final := (List.range 64).foldl
    (fun (st : List Nat) i =>
      match st with
      | [a, b, c, d, e, f, g, hh] =>
        let t1 := add32 (add32 (add32 hh (bigSigma1 e))
          (add32 (ch32 e f g) (K256.getD i 0))) (w.getD i 0)
        let t2 := add32 (bigSigma0 a) (maj32 a b c)
        [add32 t1 t2, a, b, c, add32 d t1, e, f, g]
      | other => other)
    h
  List.zipWith add32 h final

/-- SHA-256 of a byte list, as the final 8-word state. -/
def sha256 (msg : List Nat) : List Nat :=
  (chunks64 (padMessage msg)).foldl compress H256

/-- Lowercase hexadecimal digit. -/
def hexDigitChar (n : Nat) : Char :=
  if n < 10 then Char.ofNat (48 + n) else Char.ofNat (87 + n)

/-- Fixed-width 8-digit lowercase hex rendering of a 32-bit word. -/
def wordHex (w : Nat) : String :=
  String.mk ((List.range 8).map (fun i => hexDigitChar ((w >>> ((7 - i) * 4)) % 16)))

/-- `fmt.Sprintf("%x", sign)` on the 32-byte digest: lowercase hex. -/
def sha256hex (msg : List Nat) : String :=
  String.join ((sha256 msg).map wordHex)

/-- UTF-8 bytes of one character (Go strings are UTF-8 byte sequences). -/
def utf8Bytes (c : Char) : List Nat :=
  let n := c.toNat
  if n < 128 then [n]
  else if n < 2048 then [192 + n / 64, 128 + n % 64]
  else if n < 65536 then
    [224 + n / 4096, 128 + (n / 64) % 64, 128 + n % 64]
  else
    [240 + n / 262144, 128 + (n / 4096) % 64, 128 + (n / 64) % 64, 128 + n % 64]

/-- The bytes of a Go string. -/
def strBytes (s : String) : List Nat :=
  (s.data.map utf8Bytes).flatten

/-- The signature computed at `client.go:213-215`:
`sha256.Sum256([]byte(c.AppKey + ts + c.MasterSecret))` rendered with
`fmt.Sprintf("%x", ·)`. -/
def authSignature (appKey ts masterSecret : String) : String :=
  sha256hex (strBytes (appKey ++ ts ++ masterSecret))

/-- The JSON body `{appkey, timestamp, sign}` sent to the token-issuance
endpoint by `refreshAuth`. -/
structure AuthReqBody where
  appkey : String
  timestamp : String
  sign : String
  deriving Repr, DecidableEq

/-- The request body `refreshAuth` builds, given the current clock reading
in milliseconds (`time.Now().UnixNano()/1000000`). -/
def authReqBody (c : client) (nowMs : Nat) : AuthReqBody :=
  { appkey := c.appKey
    timestamp := toString nowMs
    sign := authSignature c.appKey (toString nowMs) c.masterSecret }

/-! ### Operations -/

/-- `AuthToken` (client.go:170-172). -/
def client.AuthToken (c : client) : String := c.authToken

/-- `strconv.FormatInt(time.Now().UnixNano(), 12)`: base-12 rendering of
the nanosecond clock, used to generate request identifiers. -/
def formatBase12 (n : Nat) : String :=
  String.mk (Nat.toDigits 12 n)

/-- `CloseAuth` (client.go:260-289): POST to the token-revocation endpoint
carrying the current token; any pipeline failure or a non-"ok" result is
an error.  The method never assigns to its receiver, so the client state
is returned unchanged. -/
def client.CloseAuth (c : client) (o : HttpOutcome RspBody) :
    client × Except GError RspBody × List Endpoint :=
  match doExchange "CloseAuth" o with
  | .error e => (c, .error e, [.authClose])
  | .ok ret =>
    if ret.result ≠ "ok" then (c, .error (.remote "CloseAuth" ret), [.authClose])
    else (c, .ok ret, [.authClose])

/-- The token-acquisition half of `refreshAuth` (client.go:211-256): build
the signed request body, POST it to the `auth_sign` endpoint, and store
whatever `auth_token` the decoded response carries — the envelope's
result code is never inspected on this path. -/
def client.acquireAuth (c : client) (nowMs : Nat) (o : HttpOutcome AuthRsp) :
    client × Except GError Unit × List Endpoint :=
  let _body := authReqBody c nowMs
  match doExchange "refreshAuth" o with
  | .error e => (c, .error e, [.authSign])
  | .ok ret => ({c with authToken := ret.authToken}, .ok (), [.authSign])

/-- `refreshAuth` (client.go:201-257): when a token is held, first call
`CloseAuth`, returning a wrapped error (and stopping) if it fails; then
request a new token. -/
def client.refreshAuth (c : client) (nowMs : Nat)
    (closeRsp : HttpOutcome RspBody) (authRsp : HttpOutcome AuthRsp) :
    client × Except GError Unit × List Endpoint :=
  if c.authToken.length > 0 then
    match c.CloseAuth closeRsp with
    | (c1, .error e, tr) => (c1, .error (.wrap "refreshAuth" e), tr)
    | (c1, .ok _, tr) =>
      match c1.acquireAuth nowMs authRsp with
      | (c2, r, tr2) => (c2, r, tr ++ tr2)
  else
    c.acquireAuth nowMs authRsp

/-- `Init` (client.go:151-167) together with the synchronous part of
`client.init` (client.go:174-181): when the package-level `single` is
nil, allocate it, copy the parameters, and perform the first
`refreshAuth`; on failure return a wrapped error while `single` stays
allocated.  When `single` is already set, return it with a nil error,
ignoring the parameters.  The background ticker goroutine spawned by
`init` is outside this model; the global `single` is passed and returned
explicitly. -/
def Init (single : Option client) (parms : InitParams) (nowMs : Nat)
    (closeRsp : HttpOutcome RspBody) (authRsp : HttpOutcome AuthRsp) :
    Option client × Except GError client :=
  match single with
  | some c => (some c, .ok c)
  | none =>
    let c0 : client :=
      { appID := parms.appID, appSecret := parms.appSecret,
        appKey := parms.appKey, masterSecret := parms.masterSecret,
        authHeartbeat := parms.authHeartbeat,
        lastUpdateTokenTime := 0, authToken := "" }
    match c0.refreshAuth nowMs closeRsp authRsp with
    | (c1, .error e, _) => (some c1, .error (.wrap "GetClient" e))
    | (c1, .ok _, _) => (some c1, .ok c1)

/-- `PushToSingle` (client.go:293-341): reject a body with neither `cid`
nor `alias` before any request is built; otherwise stamp the app key and,
when absent, a generated request id, POST to `push_single`, and fail
unless the decoded envelope's result is "ok". -/
def client.PushToSingle (c : client) (body : SingleReqBody) (nowNs : Nat)
    (o : HttpOutcome RspBody) : Except GError RspBody × List Endpoint :=
  if body.cid.length = 0 ∧ body.«alias».length = 0 then
    (.error (.validation "PushToSingle"), [])
  else
    let body := {body with message := {body.message with appKey := c.appKey}}
    let body := if body.requestID.length = 0 then
        {body with requestID := formatBase12 nowNs} else body
    match doExchange "PushToSingle" o with
    | .error e => (.error e, [.pushSingle])
    | .ok ret0 =>
      let ret := {ret0 with requestID := mergeDefault body.requestID ret0.requestID}
      if ret.result ≠ "ok" then (.error (.remote "PushToSingle" ret), [.pushSingle])
      else (.ok ret, [.pushSingle])

/-- `PushToApp` (client.go:345-389): stamp the app key and, when absent, a
generated request id, POST to `push_app`, and fail unless the decoded
envelope's result is "ok".  (The source's error strings say
"PushToSingle" here — a copy-paste in `client.go` — so the context label
is kept as the source writes it.) -/
def client.PushToApp (c : client) (body : AppReqBody) (nowNs : Nat)
    (o : HttpOutcome RspBody) : Except GError RspBody × List Endpoint :=
  let body := {body with message := {body.message with appKey := c.appKey}}
  let body := if body.requestID.length = 0 then
      {body with requestID := formatBase12 nowNs} else body
  match doExchange "PushToSingle" o with
  | .error e => (.error e, [.pushApp])
  | .ok ret0 =>
    let ret := {ret0 with requestID := mergeDefault body.requestID ret0.requestID}
    if ret.result ≠ "ok" then (.error (.remote "PushToSingle" ret), [.pushApp])
    else (.ok ret, [.pushApp])

/-- `StopTask` (client.go:393-428): DELETE `stop_task/{taskID}`; fail
unless the decoded envelope's result is "ok". -/
def client.StopTask (c : client) (taskID : String) (o : HttpOutcome RspBody) :
    Except GError RspBody × List Endpoint :=
  let _ := taskID
  match doExchange "StopTask" o with
  | .error e => (.error e, [.stopTask])
  | .ok ret =>
    if ret.result ≠ "ok" then (.error (.remote "StopTask" ret), [.stopTask])
    else (.ok ret, [.stopTask])

/-- `UserStatus` (client.go:432-476): GET `user_status/{cid}`; when the
`lastlogin` field is present convert it with `Atoi` (a conversion failure
is returned alongside the decoded value), then return the value together
with an error when the result code is not "ok".  Go's `(*UserStatus,
error)` pair is modelled as `Option UserStatus × Option GError`. -/
def client.UserStatus (c : client) (cid : String) (o : HttpOutcome Getui.UserStatus) :
    Option Getui.UserStatus × Option GError × List Endpoint :=
  let _ := cid
  match doExchange "UserStatus" o with
  | .error e => (none, some e, [.userStatus])
  | .ok ret0 =>
    let parsed : Except GError Getui.UserStatus :=
      if ret0.lastLoginUnix.length > 0 then
        match ret0.lastLoginUnix.toInt? with
        | none => .error (.atoi ret0.lastLoginUnix)
        | some v => .ok {ret0 with lastLogin := v / 1000}
      else .ok ret0
    match parsed with
    | .error e => (some ret0, some e, [.userStatus])
    | .ok ret =>
      if ret.result ≠ "ok" then
        (some ret, some (.remoteStatus "UserStatus" ret), [.userStatus])
      else (some ret, none, [.userStatus])

/-- `UserExisted` (client.go:479-491): wrap any `UserStatus` error;
otherwise report non-existence exactly when the result code is
"no_user".  (The value-nil/error-nil case is unreachable: `UserStatus`
never returns a nil value with a nil error.) -/
def client.UserExisted (c : client) (cid : String) (o : HttpOutcome Getui.UserStatus) :
    Bool × Option GError × List Endpoint :=
  match c.UserStatus cid o with
  | (_, some e, tr) => (false, some (.wrap "UserExisted" e), tr)
  | (some ret, none, tr) =>
    if ret.result = "no_user" then (false, none, tr) else (true, none, tr)
  | (none, none, tr) => (true, none, tr)

/-- Message part of `SaveListBody`.  The struct's definition is not in
`client.go`; its fields are the ones assigned at client.go:554-558. -/
structure SaveListMessage where
  appKey : String
  isOffLine : Bool
  offlineExpireTime : Int
  msgType : String
  deriving Repr, DecidableEq

/-- `SaveListBody`, the request body of the save phase; fields as used at
client.go:554-560. -/
structure SaveListBody where
  message : SaveListMessage
  notification : Notification
  deriving Repr, DecidableEq

/-- `saveListBody` (client.go:552-596): build the shared message body from
the list request, POST it to `save_list_body`, and fail unless the
decoded envelope's result is "ok". -/
def client.saveListBody (c : client) (listBody : ListReqBody)
    (o : HttpOutcome RspBody) : Except GError RspBody × List Endpoint :=
  let _body : SaveListBody :=
    { message :=
      { appKey := c.appKey
        isOffLine := listBody.message.isOffline
        offlineExpireTime := listBody.offlineExpireTime
        msgType := listBody.message.msgType }
      notification := listBody.notification }
  match doExchange "saveListBody" o with
  | .error e => (.error e, [.saveList])
  | .ok ret =>
    if ret.result ≠ "ok" then (.error (.remote "saveListBody" ret), [.saveList])
    else (.ok ret, [.saveList])

/-- `PushToList` (client.go:495-548): validate the target, run the save
phase, and only on its success build and send the `push_list` request,
whose `taskid` is the one the save phase returned.  The middle component
is the second-phase request body, when that request was built. -/
def client.PushToList (c : client) (body : ListReqBody)
    (saveRsp pushRsp : HttpOutcome RspBody) :
    Except GError RspBody × Option ListReqBody × List Endpoint :=
  if body.cid.length = 0 ∧ body.«alias».length = 0 then
    (.error (.validation "PushToList"), none, [])
  else
    match c.saveListBody body saveRsp with
    | (.error e, tr) => (.error (.wrap "PushToList" e), none, tr)
    | (.ok saved, tr) =>
      let body := {body with
        message := {body.message with appKey := c.appKey}
        taskID := saved.taskID
        needDetail := true}
      match doExchange "PushToList" pushRsp with
      | .error e => (.error e, some body, tr ++ [.pushList])
      | .ok ret0 =>
        let ret := {ret0 with taskID := mergeDefault body.taskID ret0.taskID}
        if ret.result ≠ "ok" then
          (.error (.remote "PushToList" ret), some body, tr ++ [.pushList])
        else (.ok ret, some body, tr ++ [.pushList])

/-! ### Sample fixtures used by concrete theorems and witnesses -/

/-- Sample parameters. -/
def parms0 : InitParams :=
  { appID := "app", appSecret := "as", appKey := "K",
    masterSecret := "S", authHeartbeat := 20 }

/-- A client currently holding a token. -/
def cTok : client :=
  { toInitParams := parms0, lastUpdateTokenTime := 0, authToken := "tok" }

/-- A success envelope carrying a task id. -/
def okRsp : RspBody :=
  { result := "ok", taskID := "T1", desc := "", status := "", requestID := "" }

/-- A failure envelope. -/
def errRsp : RspBody :=
  { result := "error", taskID := "", desc := "quota exceeded", status := "",
    requestID := "" }

/-- A user-status envelope with the "no such user" result code. -/
def noUserRsp : UserStatus :=
  { result := "no_user", cid := "u1", status := "", lastLoginUnix := "",
    lastLogin := 0 }

/-- A token-issuance envelope whose result is not "ok" and whose token is
empty. -/
def badAuthRsp : AuthRsp := { result := "sign_error", authToken := "" }

/-- A successful token-issuance envelope. -/
def goodAuthRsp : AuthRsp := { result := "ok", authToken := "tok2" }

/-- Sample empty message. -/
def msg0 : Message := { appKey := "", isOffline := false, msgType := "" }

/-- Sample empty notification. -/
def notif0 : Notification :=
  { style := { type := 0, text := "", title := "" },
    transmissionType := false, transmissionContent := "" }

/-- Sample empty APS alert. -/
def apsAlert0 : ApsAlert := { title := "", body := "" }

/-- Sample empty APS payload. -/
def aps0 : Aps := { alert := apsAlert0, autoBadge := "", contentAvailable := 0 }

/-- Sample empty push info. -/
def pushInfo0 : PushInfo := { aps := aps0, multimedia := [] }

/-- A single-push body with a target. -/
def sbody1 : SingleReqBody :=
  { message := msg0, notification := notif0, cid := "c1", «alias» := "",
    requestID := "r1", pushInfo := pushInfo0 }

/-- A single-push body with neither cid nor alias. -/
def sbody0 : SingleReqBody :=
  { message := msg0, notification := notif0, cid := "", «alias» := "",
    requestID := "r1", pushInfo := pushInfo0 }

/-- A list-push body with a target. -/
def lbody1 : ListReqBody :=
  { message := msg0, notification := notif0, cid := ["c1"], «alias» := "",
    pushInfo := pushInfo0, taskID := "", needDetail := false,
    offlineExpireTime := 0 }

/-- A list-push body with neither cid nor alias. -/
def lbody0 : ListReqBody :=
  { message := msg0, notification := notif0, cid := [], «alias» := "",
    pushInfo := pushInfo0, taskID := "", needDetail := false,
    offlineExpireTime := 0 }

/-- A sample app-push body. -/
def abody1 : AppReqBody :=
  { message := msg0, notification := notif0, condition := [],
    requestID := "r1" }

/-! ### Helper lemmas -/

/-- The acquisition half of `refreshAuth` contacts exactly the issuance
endpoint, whatever the outcome. -/
theorem acquireAuth_trace (c : client) (nowMs : Nat) (a : HttpOutcome AuthRsp) :
    (c.acquireAuth nowMs a).2.2 = [Endpoint.authSign] := by
  cases a <;> rfl

/-- `saveListBody` contacts exactly the save endpoint, whatever the
outcome. -/
theorem saveListBody_trace (c : client) (b : ListReqBody)
    (s : HttpOutcome RspBody) :
    (c.saveListBody b s).2 = [Endpoint.saveList] := by
  cases s <;> simp only [client.saveListBody, doExchange] <;> split <;> rfl

/-! ### Claim theorems -/

/-- C1: refuted on the code — `refreshAuth` stores the returned token
without inspecting the envelope's result code.  At the failing input
where the token-issuance endpoint answers
`{result: "sign_error", auth_token: ""}`, `Init` returns a nil error
while `AuthToken()` is the empty string, contradicting the claim that the
token is stored only on "ok", that failure yields an Auth error, and that
`Init` never succeeds while leaving an empty token. -/
theorem c1_init_succeeds_with_empty_token :
    ∃ c1 : client,
      Init none parms0 5 (HttpOutcome.decoded okRsp)
          (HttpOutcome.decoded badAuthRsp) = (some c1, Except.ok c1) ∧
      c1.AuthToken = "" ∧ badAuthRsp.result ≠ "ok" :=
  ⟨{ toInitParams := parms0, lastUpdateTokenTime := 0, authToken := "" },
    rfl, rfl, by decide⟩

/-- C2: refuted on the code — the "no_user" result code is reported as a
failure.  At the failing input where the status lookup decodes
`{result: "no_user"}`, `UserExisted` returns `false` together with a
non-nil wrapped error, because `UserStatus` already turns every
non-"ok" result into an error before `UserExisted`'s own "no_user"
branch can run; the claim says `false` with a nil error. -/
theorem c2_no_user_reported_as_error :
    cTok.UserExisted "u1" (HttpOutcome.decoded noUserRsp) =
      (false,
       some (GError.wrap "UserExisted"
         (GError.remoteStatus "UserStatus" noUserRsp)),
       [Endpoint.userStatus]) := rfl

/-- C4 counterexample: with a held token "tok" and a successful ("ok")
revocation response, `CloseAuth` succeeds yet the stored token afterwards
is still "tok", not the empty string the claim requires. -/
theorem c4_close_auth_cex :
    (cTok.CloseAuth (HttpOutcome.decoded okRsp)).2.1 = Except.ok okRsp ∧
    ¬ (cTok.CloseAuth (HttpOutcome.decoded okRsp)).1.authToken = "" :=
  ⟨rfl, by decide⟩

/-- C4 (amended): `CloseAuth` never mutates the client: whatever the
revocation outcome — success included — the stored token field is left
unchanged; only a later successful issuance overwrites it. -/
theorem c4_close_auth_state_unchanged (c : client) (o : HttpOutcome RspBody) :
    (c.CloseAuth o).1 = c := by
  cases o <;> simp only [client.CloseAuth, doExchange] <;> split <;> rfl

/-- C10: `Init` constructs the singleton at most once: whenever the
package-level `single` is already set — including after a first call
whose token acquisition failed — `Init` returns that same client with a
nil error and ignores its parameters; and every first call, succeeding or
failing, leaves `single` set, so no later call retries acquisition. -/
theorem c10_init_singleton (c : client) (parms parms2 : InitParams)
    (nowMs now2 : Nat) (closeRsp cr2 : HttpOutcome RspBody)
    (authRsp ar2 : HttpOutcome AuthRsp) :
    Init (some c) parms2 now2 cr2 ar2 = (some c, Except.ok c) ∧
    ∃ c1 : client, (Init none parms nowMs closeRsp authRsp).1 = some c1 := by
  refine ⟨rfl, ?_⟩
  simp only [Init]
  split
  · exact ⟨_, rfl⟩
  · exact ⟨_, rfl⟩

/-- C3 counterexample: with a token held, when the revocation call fails
(transport failure), `refreshAuth` returns an error and the issuance
endpoint is never contacted — the call trace is exactly `[authClose]` —
contradicting the claim that the acquisition of a new token is still
attempted. -/
theorem c3_refresh_abort_cex :
    (cTok.refreshAuth 5 (HttpOutcome.sendFailure "conn reset")
        (HttpOutcome.decoded goodAuthRsp)).2.2 = [Endpoint.authClose] ∧
    (cTok.refreshAuth 5 (HttpOutcome.sendFailure "conn reset")
        (HttpOutcome.decoded goodAuthRsp)).2.1 =
      Except.error (GError.wrap "refreshAuth"
        (GError.send "CloseAuth" "conn reset")) :=
  ⟨rfl, rfl⟩

/-- C3 (amended): on a renewal where a token is currently held,
`refreshAuth` contacts the revocation endpoint first; when revocation
succeeds, the issuance call follows it (revoke strictly before issue),
but when revocation fails the renewal is aborted: the wrapped error is
returned and the issuance call is not attempted. -/
theorem c3_refresh_invalidate_first (c : client) (nowMs : Nat)
    (closeRsp : HttpOutcome RspBody) (authRsp : HttpOutcome AuthRsp)
    (h : c.authToken.length > 0) :
    (c.refreshAuth nowMs closeRsp authRsp).2.2.head? = some Endpoint.authClose ∧
    (∀ r : RspBody, (c.CloseAuth closeRsp).2.1 = Except.ok r →
      (c.refreshAuth nowMs closeRsp authRsp).2.2 =
        [Endpoint.authClose, Endpoint.authSign]) ∧
    (∀ e : GError, (c.CloseAuth closeRsp).2.1 = Except.error e →
      (c.refreshAuth nowMs closeRsp authRsp).2.1 =
        Except.error (GError.wrap "refreshAuth" e) ∧
      Endpoint.authSign ∉ (c.refreshAuth nowMs closeRsp authRsp).2.2) := by
  have hacq := acquireAuth_trace c nowMs authRsp
  cases closeRsp <;>
    simp only [client.refreshAuth, client.CloseAuth, doExchange, h, if_pos,
      gt_iff_lt] <;>
    simp_all [client.CloseAuth, doExchange]
  case decoded r =>
    by_cases hr : r.result = "ok" <;>
      simp_all [client.refreshAuth, client.CloseAuth, doExchange, h,
        acquireAuth_trace]

/-- Witness for C3 at a concrete renewal: a client holding "tok", a
successful revocation response, and a successful issuance response. -/
theorem c3_refresh_invalidate_first_witness :
    cTok.authToken.length > 0 ∧
    ((cTok.refreshAuth 5 (HttpOutcome.decoded okRsp)
        (HttpOutcome.decoded goodAuthRsp)).2.2.head? = some Endpoint.authClose ∧
     (∀ r : RspBody,
       (cTok.CloseAuth (HttpOutcome.decoded okRsp)).2.1 = Except.ok r →
       (cTok.refreshAuth 5 (HttpOutcome.decoded okRsp)
          (HttpOutcome.decoded goodAuthRsp)).2.2 =
         [Endpoint.authClose, Endpoint.authSign]) ∧
     (∀ e : GError,
       (cTok.CloseAuth (HttpOutcome.decoded okRsp)).2.1 = Except.error e →
       (cTok.refreshAuth 5 (HttpOutcome.decoded okRsp)
          (HttpOutcome.decoded goodAuthRsp)).2.1 =
         Except.error (GError.wrap "refreshAuth" e) ∧
       Endpoint.authSign ∉ (cTok.refreshAuth 5 (HttpOutcome.decoded okRsp)
          (HttpOutcome.decoded goodAuthRsp)).2.2)) :=
  ⟨by decide, c3_refresh_invalidate_first cTok 5 (HttpOutcome.decoded okRsp)
    (HttpOutcome.decoded goodAuthRsp) (by decide)⟩

/-- C6: a push body carrying neither a device identifier nor an alias is
rejected by `PushToSingle` and `PushToList` with a client-side validation
error before any network activity: the call trace is empty, so no HTTP
request is built or sent. -/
theorem c6_validation_before_network (c : client) (sbody : SingleReqBody)
    (lbody : ListReqBody) (nowNs : Nat) (o saveRsp pushRsp : HttpOutcome RspBody)
    (hs1 : sbody.cid = "") (hs2 : sbody.«alias» = "")
    (hl1 : lbody.cid = []) (hl2 : lbody.«alias» = "") :
    c.PushToSingle sbody nowNs o =
      (Except.error (GError.validation "PushToSingle"), []) ∧
    c.PushToList lbody saveRsp pushRsp =
      (Except.error (GError.validation "PushToList"), none, []) := by
  constructor <;>
    simp [client.PushToSingle, client.PushToList, hs1, hs2, hl1, hl2]

/-- Witness for C6 at concrete target-less bodies. -/
theorem c6_validation_before_network_witness :
    sbody0.cid = "" ∧ sbody0.«alias» = "" ∧ lbody0.cid = [] ∧
    lbody0.«alias» = "" ∧
    (cTok.PushToSingle sbody0 7 (HttpOutcome.decoded okRsp) =
      (Except.error (GError.validation "PushToSingle"), []) ∧
     cTok.PushToList lbody0 (HttpOutcome.decoded okRsp)
        (HttpOutcome.decoded okRsp) =
      (Except.error (GError.validation "PushToList"), none, [])) :=
  ⟨rfl, rfl, rfl, rfl,
    c6_validation_before_network cTok sbody0 lbody0 7
      (HttpOutcome.decoded okRsp) (HttpOutcome.decoded okRsp)
      (HttpOutcome.decoded okRsp) rfl rfl rfl rfl⟩

/-- C7: when a push or stop operation's response transports and decodes
but its envelope's result is not "ok", the operation returns a non-nil
remote error carrying the envelope — in particular its result code and
description — regardless of the transport's own verdict. -/
theorem c7_remote_error_on_not_ok (c : client) (sbody : SingleReqBody)
    (abody : AppReqBody) (tid : String) (nowNs : Nat) (ret : RspBody)
    (hres : ret.result ≠ "ok") (hcid : sbody.cid.length ≠ 0) :
    (∃ r1 : RspBody, (c.PushToSingle sbody nowNs (HttpOutcome.decoded ret)).1 =
        Except.error (GError.remote "PushToSingle" r1) ∧
        r1.result = ret.result ∧ r1.desc = ret.desc) ∧
    (∃ r2 : RspBody, (c.PushToApp abody nowNs (HttpOutcome.decoded ret)).1 =
        Except.error (GError.remote "PushToSingle" r2) ∧
        r2.result = ret.result ∧ r2.desc = ret.desc) ∧
    (c.StopTask tid (HttpOutcome.decoded ret)).1 =
      Except.error (GError.remote "StopTask" ret) := by
  refine ⟨?_, ?_, ?_⟩
  · simp only [client.PushToSingle, doExchange, hcid]
    split
    · simp_all
    · split <;> simp_all
  · simp only [client.PushToApp, doExchange]
    split <;> simp_all
  · simp [client.StopTask, doExchange, hres]

/-- Witness for C7 at a concrete failure envelope
(`result: "error", desc: "quota exceeded"`). -/
theorem c7_remote_error_on_not_ok_witness :
    errRsp.result ≠ "ok" ∧ sbody1.cid.length ≠ 0 ∧
    ((∃ r1 : RspBody, (cTok.PushToSingle sbody1 7 (HttpOutcome.decoded errRsp)).1 =
        Except.error (GError.remote "PushToSingle" r1) ∧
        r1.result = errRsp.result ∧ r1.desc = errRsp.desc) ∧
     (∃ r2 : RspBody, (cTok.PushToApp abody1 7 (HttpOutcome.decoded errRsp)).1 =
        Except.error (GError.remote "PushToSingle" r2) ∧
        r2.result = errRsp.result ∧ r2.desc = errRsp.desc) ∧
     (cTok.StopTask "T1" (HttpOutcome.decoded errRsp)).1 =
      Except.error (GError.remote "StopTask" errRsp)) :=
  ⟨by decide, by decide,
    c7_remote_error_on_not_ok cTok sbody1 abody1 "T1" 7 errRsp
      (by decide) (by decide)⟩

/-- C5: the two-phase list push fails atomically: whenever the save phase
returns an error, `PushToList` returns an error and the `push_list`
endpoint never appears in the call trace; and whenever the save phase
succeeds (and the target validation passed), the second-phase request
body carries exactly the task identifier the save phase returned. -/
theorem c5_push_to_list_two_phase (c : client) (body : ListReqBody)
    (saveRsp pushRsp : HttpOutcome RspBody) :
    (∀ (e : GError) (tr : List Endpoint),
      c.saveListBody body saveRsp = (Except.error e, tr) →
      (∃ e2, (c.PushToList body saveRsp pushRsp).1 = Except.error e2) ∧
      Endpoint.pushList ∉ (c.PushToList body saveRsp pushRsp).2.2) ∧
    (∀ (rsv : RspBody) (tr : List Endpoint),
      c.saveListBody body saveRsp = (Except.ok rsv, tr) →
      ¬ (body.cid.length = 0 ∧ body.«alias».length = 0) →
      ∃ b2 : ListReqBody, (c.PushToList body saveRsp pushRsp).2.1 = some b2 ∧
        b2.taskID = rsv.taskID) := by
  constructor
  · intro e tr hsv
    have htr : tr = [Endpoint.saveList] := by
      have h2 := saveListBody_trace c body saveRsp
      rw [hsv] at h2
      exact h2
    by_cases hv : body.cid.length = 0 ∧ body.«alias».length = 0
    · exact ⟨⟨GError.validation "PushToList", by simp [client.PushToList, hv]⟩,
        by simp [client.PushToList, hv]⟩
    · have hv2 : ¬ (body.cid = [] ∧ body.«alias».length = 0) := by
        simpa using hv
      refine ⟨⟨GError.wrap "PushToList" e, ?_⟩, ?_⟩ <;>
        simp [client.PushToList, hv2, hsv, htr]
  · intro rsv tr hsv hv
    have hv2 : ¬ (body.cid = [] ∧ body.«alias».length = 0) := by
      simpa using hv
    cases pushRsp <;>
      simp [client.PushToList, hv2, hsv, doExchange]
    split <;> simp

/-- Witness for C5: a failed save phase (transport failure) short-circuits
before the push call, and a successful save phase threads its task id
"T1" into the second-phase request. -/
theorem c5_push_to_list_two_phase_witness :
    ((∃ e2, (cTok.PushToList lbody1 (HttpOutcome.sendFailure "conn reset")
        (HttpOutcome.decoded okRsp)).1 = Except.error e2) ∧
     Endpoint.pushList ∉ (cTok.PushToList lbody1
        (HttpOutcome.sendFailure "conn reset")
        (HttpOutcome.decoded okRsp)).2.2) ∧
    (∃ b2 : ListReqBody, (cTok.PushToList lbody1 (HttpOutcome.decoded okRsp)
        (HttpOutcome.decoded okRsp)).2.1 = some b2 ∧
      b2.taskID = okRsp.taskID) :=
  ⟨(c5_push_to_list_two_phase cTok lbody1 (HttpOutcome.sendFailure "conn reset")
      (HttpOutcome.decoded okRsp)).1
      (GError.send "saveListBody" "conn reset") [Endpoint.saveList] rfl,
   (c5_push_to_list_two_phase cTok lbody1 (HttpOutcome.decoded okRsp)
      (HttpOutcome.decoded okRsp)).2
      okRsp [Endpoint.saveList] rfl (by decide)⟩

/-- C8: the signature `refreshAuth` sends is a deterministic pure function
of (app key, millisecond timestamp rendered as a decimal string, master
secret): SHA-256 of their concatenation, rendered as lowercase
hexadecimal; at the spec's concrete inputs (key "K", secret "S",
timestamp 1000) the digest matches the standard SHA-256 value, and
changing any one of the three inputs changes the output. -/
theorem c8_auth_signature_spec :
    (∀ appKey ts masterSecret : String,
      authSignature appKey ts masterSecret =
        sha256hex (strBytes (appKey ++ ts ++ masterSecret))) ∧
    (∀ (c : client) (nowMs : Nat),
      (authReqBody c nowMs).timestamp = toString nowMs ∧
      (authReqBody c nowMs).sign =
        authSignature c.appKey (toString nowMs) c.masterSecret) ∧
    authSignature "K" "1000" "S" =
      "506e2ea4e3654c82f149e7d566a264bb7b6b636393e49c17e5b47f5fff3ead87" ∧
    authSignature "K2" "1000" "S" ≠ authSignature "K" "1000" "S" ∧
    authSignature "K" "1001" "S" ≠ authSignature "K" "1000" "S" ∧
    authSignature "K" "1000" "S2" ≠ authSignature "K" "1000" "S" :=
  ⟨fun _ _ _ => rfl, fun _ _ => ⟨rfl, rfl⟩,
    by decide, by decide, by decide, by decide⟩

end Getui
